import Mathlib

/-!
Verification development for the KS language pipeline (lexer, parser,
tree-walking interpreter).  Every definition below is a shallow embedding
of the corresponding Python definition in the repository:
`lexer.py` (class `Lexer`), `parser.py` (class `Parser`),
`ast_nodes.py` (the AST dataclasses) and `interpreter.py`
(classes `Environment`, `KSFunction`, `Interpreter`).

Modelling conventions:
* Python source positions (`pos` into the text) become an explicit list of
  remaining characters plus the line/column counters.
* Loops and recursion are driven by an explicit fuel parameter; exhausting
  fuel yields a distinguished `timeout` outcome that cannot occur when the
  wrapper functions supply enough fuel for the concrete inputs considered.
* Python exceptions are modelled as explicit error values: the lexer's
  `SyntaxError` and the parser's `ParseError` become `lexError` /
  `parseError`; any other host exception that the repository code lets
  escape (for example `ValueError` from `float(...)`, or the `ReturnValue`
  signal escaping `interpret`) is modelled by a `hostError` / signal
  constructor, since such an exception aborts the pipeline uncaught.
* Error message texts follow the source with the quote characters around
  interpolated fragments omitted.
* Python's Unicode-aware `isalpha`/`isdigit`/`isalnum` are modelled by
  Lean's ASCII predicates; all inputs considered are ASCII.
* Python `float` values are modelled by rationals.  The repository only
  compares them, adds them and prints them; the decimal rendering of a
  non-integral float is approximated (no theorem below depends on it).
-/

namespace KS

/-- Token kinds, mirroring `TokenType` in `lexer.py`. -/
inductive TokenType where
  | NUMBER | STRING | BOOLEAN | IDENTIFIER
  | LET | FUNC | IF | ELSE | FOR | WHILE | RETURN | GORUN | TRUE | FALSE
  | PLUS | MINUS | MULTIPLY | DIVIDE | MODULO | ASSIGN
  | EQUAL | NOT_EQUAL | LESS_THAN | GREATER_THAN | LESS_EQUAL | GREATER_EQUAL
  | AND | OR | NOT
  | SEMICOLON | COMMA | LEFT_PAREN | RIGHT_PAREN | LEFT_BRACE | RIGHT_BRACE
  | EOF | NEWLINE | WHITESPACE
  deriving DecidableEq, Repr

/-- The `.value` string of each `TokenType` enum member (used in parser
error messages). -/
def tokenTypeValue : TokenType → String
  | .NUMBER => "NUMBER" | .STRING => "STRING" | .BOOLEAN => "BOOLEAN"
  | .IDENTIFIER => "IDENTIFIER"
  | .LET => "LET" | .FUNC => "FUNC" | .IF => "IF" | .ELSE => "ELSE"
  | .FOR => "FOR" | .WHILE => "WHILE" | .RETURN => "RETURN"
  | .GORUN => "GORUN" | .TRUE => "TRUE" | .FALSE => "FALSE"
  | .PLUS => "PLUS" | .MINUS => "MINUS" | .MULTIPLY => "MULTIPLY"
  | .DIVIDE => "DIVIDE" | .MODULO => "MODULO" | .ASSIGN => "ASSIGN"
  | .EQUAL => "EQUAL" | .NOT_EQUAL => "NOT_EQUAL"
  | .LESS_THAN => "LESS_THAN" | .GREATER_THAN => "GREATER_THAN"
  | .LESS_EQUAL => "LESS_EQUAL" | .GREATER_EQUAL => "GREATER_EQUAL"
  | .AND => "AND" | .OR => "OR" | .NOT => "NOT"
  | .SEMICOLON => "SEMICOLON" | .COMMA => "COMMA"
  | .LEFT_PAREN => "LEFT_PAREN" | .RIGHT_PAREN => "RIGHT_PAREN"
  | .LEFT_BRACE => "LEFT_BRACE" | .RIGHT_BRACE => "RIGHT_BRACE"
  | .EOF => "EOF" | .NEWLINE => "NEWLINE" | .WHITESPACE => "WHITESPACE"

/-- `Token` dataclass from `lexer.py`. -/
structure Token where
  type : TokenType
  value : String
  line : Nat
  column : Nat
  deriving DecidableEq, Repr

/-- `Lexer.keywords` dictionary. -/
def keywordType (s : String) : Option TokenType :=
  if s = "let" then some .LET
  else if s = "func" then some .FUNC
  else if s = "if" then some .IF
  else if s = "else" then some .ELSE
  else if s = "for" then some .FOR
  else if s = "while" then some .WHILE
  else if s = "return" then some .RETURN
  else if s = "gorun" then some .GORUN
  else if s = "true" then some .TRUE
  else if s = "false" then some .FALSE
  else none

/-- `Lexer.operators` dictionary (one- and two-character operators). -/
def operatorType (s : String) : Option TokenType :=
  if s = "+" then some .PLUS
  else if s = "-" then some .MINUS
  else if s = "*" then some .MULTIPLY
  else if s = "/" then some .DIVIDE
  else if s = "%" then some .MODULO
  else if s = "=" then some .ASSIGN
  else if s = "==" then some .EQUAL
  else if s = "!=" then some .NOT_EQUAL
  else if s = "<" then some .LESS_THAN
  else if s = ">" then some .GREATER_THAN
  else if s = "<=" then some .LESS_EQUAL
  else if s = ">=" then some .GREATER_EQUAL
  else if s = "&&" then some .AND
  else if s = "||" then some .OR
  else if s = "!" then some .NOT
  else none

/-- `Lexer.delimiters` dictionary. -/
def delimiterType (c : Char) : Option TokenType :=
  if c = ';' then some .SEMICOLON
  else if c = ',' then some .COMMA
  else if c = '(' then some .LEFT_PAREN
  else if c = ')' then some .RIGHT_PAREN
  else if c = '\x7b' then some .LEFT_BRACE
  else if c = '\x7d' then some .RIGHT_BRACE
  else none

/-- The operator-start character set tested by `Lexer.tokenize`
(`char in '+-*'+...`). -/
def isOperatorChar (c : Char) : Bool :=
  c = '+' || c = '-' || c = '*' || c = '/' || c = '%' || c = '=' ||
  c = '<' || c = '>' || c = '!' || c = '&' || c = '|'

/-- Lexer state: the remaining input characters (the suffix of `text`
from `pos`) together with the `line`/`column` counters. -/
structure LexState where
  rest : List Char
  line : Nat
  column : Nat
  deriving DecidableEq, Repr

/-- `Lexer.advance`: consume one character, updating line/column.  Past the
end of input only the column advances (Python increments `pos`/`column`
unconditionally there). -/
def lexAdvance : LexState → LexState
  | ⟨[], l, c⟩ => ⟨[], l, c + 1⟩
  | ⟨ch :: rest, l, c⟩ =>
    if ch = '\n' then ⟨rest, l + 1, 1⟩ else ⟨rest, l, c + 1⟩

/-- The loop of `Lexer.skip_whitespace`: consume spaces, tabs and carriage
returns (none of which is a newline, so only the column advances). -/
def skipWsChars : List Char → Nat → Nat → LexState
  | [], l, c => ⟨[], l, c⟩
  | ch :: rest, l, c =>
    if ch = ' ' || ch = '\t' || ch = '\r' then skipWsChars rest l (c + 1)
    else ⟨ch :: rest, l, c⟩

/-- `Lexer.skip_whitespace`. -/
def skipWhitespace (s : LexState) : LexState :=
  skipWsChars s.rest s.line s.column

/-- The loop of `Lexer.skip_comment`: consume characters up to (not
including) the next newline or the end of input. -/
def skipCommentChars : List Char → Nat → Nat → LexState
  | [], l, c => ⟨[], l, c⟩
  | ch :: rest, l, c =>
    if ch ≠ '\n' then skipCommentChars rest l (c + 1)
    else ⟨ch :: rest, l, c⟩

/-- `Lexer.skip_comment`. -/
def skipComment (s : LexState) : LexState :=
  skipCommentChars s.rest s.line s.column

/-- Greedily take characters satisfying `p` (the `while` loops of
`read_number` / `read_identifier`); none of the accepted characters is a
newline, so the caller advances the column by the count taken. -/
def spanChars (p : Char → Bool) : List Char → List Char × List Char
  | [] => ([], [])
  | c :: cs =>
    if p c then
      let (taken, rest) := spanChars p cs
      (c :: taken, rest)
    else ([], c :: cs)

/-- `Lexer.read_number`: consume `[0-9.]+` (digits AND dots, greedily —
note the source accepts any mix of digits and dots here). -/
def readNumber (s : LexState) : Token × LexState :=
  let (cs, rest) := spanChars (fun ch => ch.isDigit || ch = '.') s.rest
  (⟨.NUMBER, String.mk cs, s.line, s.column⟩, ⟨rest, s.line, s.column + cs.length⟩)

/-- `Lexer.read_identifier`: consume `[A-Za-z0-9_]+`, then map keywords;
`true`/`false` are downgraded from their keyword kinds to `BOOLEAN`. -/
def readIdentifier (s : LexState) : Token × LexState :=
  let (cs, rest) := spanChars (fun ch => ch.isAlphanum || ch = '_') s.rest
  let ident := String.mk cs
  let tt0 := (keywordType ident).getD .IDENTIFIER
  let tt := if tt0 = .TRUE || tt0 = .FALSE then TokenType.BOOLEAN else tt0
  (⟨tt, ident, s.line, s.column⟩, ⟨rest, s.line, s.column + cs.length⟩)

/-- Lexing errors: `lexError` models the `SyntaxError` raised by the lexer;
`hostError` models any other escaping host exception. -/
inductive LexErr where
  | lexError (msg : String)
  | hostError (msg : String)
  deriving DecidableEq, Repr

/-- The escape-character mapping of `Lexer.read_string`: `n`/`t`/`r` map to
the control characters, every other character (including backslash and the
double quote) stands for itself. -/
def escChar (c : Char) : Char :=
  if c = 'n' then '\n' else if c = 't' then '\t' else if c = 'r' then '\r' else c

/-- The scanning loop of `Lexer.read_string`: consume characters until an
unescaped `"` or the end of input, processing backslash escapes.  A
backslash as the very last character makes the Python source test
`self.current_char() in 'ntr\\"'` with `None`, a host `TypeError`. -/
def readStringLoop : List Char → Nat → Nat → String → Except LexErr (String × LexState)
  | [], l, c, acc => .ok (acc, ⟨[], l, c⟩)
  | ch :: rest, l, c, acc =>
    if ch = '"' then .ok (acc, ⟨ch :: rest, l, c⟩)
    else if ch = '\\' then
      match rest with
      | [] => .error (.hostError "TypeError: in <string> requires string as left operand, not NoneType")
      | e :: rest2 =>
        if e = '\n' then readStringLoop rest2 (l + 1) 1 (acc.push (escChar e))
        else readStringLoop rest2 l (c + 2) (acc.push (escChar e))
    else
      if ch = '\n' then readStringLoop rest (l + 1) 1 (acc.push ch)
      else readStringLoop rest l (c + 1) (acc.push ch)

/-- `Lexer.read_string`: skip the opening quote, scan the body, then skip
the closing quote when present (an unterminated string is accepted
silently). -/
def readString (s : LexState) : Except LexErr (Token × LexState) := do
  let startLine := s.line
  let startCol := s.column
  let s1 := lexAdvance s
  let (val, s2) ← readStringLoop s1.rest s1.line s1.column ""
  let s3 := if s2.rest.head? = some '"' then lexAdvance s2 else s2
  pure (⟨.STRING, val, startLine, startCol⟩, s3)

/-- `Lexer.read_operator`: try the two-character lookahead first, then the
single character.  When the lookahead is empty Python builds `two_char`
from the current character alone, so a trailing single-character operator
is matched by the two-character branch and `advance` runs twice. -/
def readOperator (s : LexState) : Except LexErr (Token × LexState) :=
  match s.rest with
  | [] => .error (.hostError "TypeError: read_operator called at end of input")
  | c1 :: rest1 =>
    match rest1 with
    | [] =>
      let two := String.mk [c1]
      match operatorType two with
      | some tt => .ok (⟨tt, two, s.line, s.column⟩, ⟨[], s.line, s.column + 2⟩)
      | none =>
        .error (.lexError ("Unknown operator: " ++ String.mk [c1] ++ " at line "
          ++ toString s.line ++ ", column " ++ toString s.column))
    | c2 :: rest2 =>
      let two := String.mk [c1, c2]
      match operatorType two with
      | some tt => .ok (⟨tt, two, s.line, s.column⟩, ⟨rest2, s.line, s.column + 2⟩)
      | none =>
        let one := String.mk [c1]
        match operatorType one with
        | some tt => .ok (⟨tt, one, s.line, s.column⟩, ⟨rest1, s.line, s.column + 1⟩)
        | none =>
          .error (.lexError ("Unknown operator: " ++ one ++ " at line "
            ++ toString s.line ++ ", column " ++ toString s.column))

/-- The main loop of `Lexer.tokenize`.  Each iteration consumes at least one
character, so fuel `|text| + 1` never runs out. -/
def tokenizeLoop : Nat → LexState → List Token → Except LexErr (List Token × LexState)
  | 0, _, _ => .error (.hostError "lexer fuel exhausted")
  | fuel + 1, s, acc =>
    match s.rest with
    | [] => .ok (acc, s)
    | _ :: _ =>
      let s1 := skipWhitespace s
      match s1.rest with
      | [] => .ok (acc, s1)
      | ch :: rest =>
        if ch = '/' ∧ rest.head? = some '/' then
          tokenizeLoop fuel (skipComment s1) acc
        else if ch = '\n' then
          tokenizeLoop fuel (lexAdvance s1) (acc ++ [⟨.NEWLINE, "\n", s1.line, s1.column⟩])
        else if ch.isDigit then
          let (t, s2) := readNumber s1
          tokenizeLoop fuel s2 (acc ++ [t])
        else if ch = '"' then
          match readString s1 with
          | .error e => .error e
          | .ok (t, s2) => tokenizeLoop fuel s2 (acc ++ [t])
        else if ch.isAlpha || ch = '_' then
          let (t, s2) := readIdentifier s1
          tokenizeLoop fuel s2 (acc ++ [t])
        else
          match delimiterType ch with
          | some tt =>
            tokenizeLoop fuel (lexAdvance s1) (acc ++ [⟨tt, String.mk [ch], s1.line, s1.column⟩])
          | none =>
            if isOperatorChar ch then
              match readOperator s1 with
              | .error e => .error e
              | .ok (t, s2) => tokenizeLoop fuel s2 (acc ++ [t])
            else
              .error (.lexError ("Unexpected character: " ++ String.mk [ch] ++ " at line "
                ++ toString s1.line ++ ", column " ++ toString s1.column))

/-- `Lexer.tokenize`: run the main loop from line 1, column 1 and append the
final `EOF` token. -/
def tokenize (text : String) : Except LexErr (List Token) := do
  let (toks, sEnd) ← tokenizeLoop (text.length + 1) ⟨text.data, 1, 1⟩ []
  pure (toks ++ [⟨.EOF, "", sEnd.line, sEnd.column⟩])

/-! ## AST (`ast_nodes.py`) -/

/-- Literal payloads built by `Parser.primary`: Python `bool`, `int`,
`float` (modelled as a rational) and `str` values. -/
inductive Lit where
  | lbool (b : Bool)
  | lint (n : Int)
  | lfloat (q : ℚ)
  | lstr (s : String)
  deriving DecidableEq, Repr

mutual

/-- Expression nodes (`LiteralExpression`, `IdentifierExpression`,
`BinaryExpression`, `UnaryExpression`, `CallExpression`,
`AssignmentExpression`).  An assignment target is always an
`IdentifierExpression` (enforced by the parser), so only its name is
stored. -/
inductive Expr where
  | literal (v : Lit)
  | identifier (name : String)
  | binary (left : Expr) (op : String) (right : Expr)
  | unary (op : String) (operand : Expr)
  | call (fn : Expr) (args : List Expr)
  | assignE (target : String) (value : Expr)

/-- Statement nodes (`VariableDeclaration`, `FunctionDeclaration`,
`ExpressionStatement`, `BlockStatement`, `IfStatement`, `ForStatement`,
`WhileStatement`, `ReturnStatement`, `GorunStatement`).  A
`FunctionDeclaration` body is a `BlockStatement`; only its statement list
is stored (the interpreter uses `declaration.body.statements`). -/
inductive Stmt where
  | varDecl (name : String) (initE : Option Expr)
  | funcDecl (name : String) (params : List String) (body : List Stmt)
  | exprStmt (e : Expr)
  | block (stmts : List Stmt)
  | ifS (cond : Expr) (thenB : Stmt) (elseB : Option Stmt)
  | forS (initS : Option Stmt) (cond : Option Expr) (inc : Option Expr) (body : Stmt)
  | whileS (cond : Expr) (body : Stmt)
  | returnS (value : Option Expr)
  | gorun (e : Expr)

end

/-- `Program` root node. -/
structure Program where
  statements : List Stmt

/-! ## Parser (`parser.py`) -/

/-- Parser errors: `parseError` is the `ParseError` exception; `hostError`
models host exceptions escaping the parser (the `ValueError` raised by
`float(...)` on a malformed `NUMBER` lexeme); `timeout` is the fuel
artifact. -/
inductive PErr where
  | parseError (msg : String)
  | hostError (msg : String)
  | timeout
  deriving DecidableEq, Repr

/-- Parser state: the filtered token list and the `current` index. -/
structure PState where
  toks : List Token
  cur : Nat
  deriving Repr

/-- `Parser.peek` (the token list always ends with `EOF`, so the default
is unreachable on states produced by `parse`). -/
def pPeek (p : PState) : Token :=
  p.toks.getD p.cur ⟨.EOF, "", 0, 0⟩

/-- `Parser.previous`. -/
def pPrevious (p : PState) : Token :=
  p.toks.getD (p.cur - 1) ⟨.EOF, "", 0, 0⟩

/-- `Parser.is_at_end`. -/
def pAtEnd (p : PState) : Bool :=
  (pPeek p).type = .EOF

/-- `Parser.advance` (state part; the returned token is `pPrevious`). -/
def pAdvance (p : PState) : PState :=
  if pAtEnd p then p else { p with cur := p.cur + 1 }

/-- `Parser.check`. -/
def pCheck (p : PState) (tt : TokenType) : Bool :=
  if pAtEnd p then false else (pPeek p).type = tt

/-- `Parser.match`: try each kind in order, advancing past the first hit. -/
def pMatch (p : PState) (tts : List TokenType) : Bool × PState :=
  match tts with
  | [] => (false, p)
  | tt :: rest => if pCheck p tt then (true, pAdvance p) else pMatch p rest

/-- `Parser.consume`. -/
def pConsume (p : PState) (tt : TokenType) (msg : String) : Except PErr (Token × PState) :=
  if pCheck p tt then .ok (pPeek p, pAdvance p)
  else
    .error (.parseError (msg ++ ". Got " ++ tokenTypeValue (pPeek p).type
      ++ " at line " ++ toString (pPeek p).line))

/-- Python `int(...)` on the all-digit lexemes produced by
`Lexer.read_number` when no dot is present. -/
def pyIntParse (s : String) : Int :=
  ((s.data.foldl (fun a c => a * 10 + (c.toNat - 48)) 0 : Nat) : Int)

/-- Split a character list at every dot (the structure Python's
`float(...)` parser sees in a digit/dot lexeme). -/
def splitOnDot : List Char → List (List Char)
  | [] => [[]]
  | c :: rest =>
    let r := splitOnDot rest
    if c = '.' then [] :: r
    else
      match r with
      | h :: t => (c :: h) :: t
      | [] => [[c]]

/-- Python `float(...)` on the digit/dot lexemes produced by
`Lexer.read_number`: at most one dot succeeds (the exact binary value is
approximated by the decimal rational), anything else raises `ValueError`. -/
def pyFloatParse (s : String) : Option ℚ :=
  match (splitOnDot s.data).map String.mk with
  | [a] => some ((pyIntParse a : ℚ))
  | [a, b] => some ((pyIntParse a : ℚ) + (pyIntParse b : ℚ) / ((10 : ℚ) ^ b.length))
  | _ => none

/-- The grammar productions of `Parser`, one constructor per method plus
explicit accumulator tasks for the `while` loops inside those methods. -/
inductive PTask where
  | programT
  | programLoop (acc : List Stmt)
  | declT
  | funcDeclT
  | paramsLoop (acc : List String)
  | varDeclT
  | stmtT
  | gorunT
  | returnT
  | ifT
  | forT
  | whileT
  | blockT
  | blockLoop (acc : List Stmt)
  | exprStmtT
  | exprT
  | assignT
  | orT
  | orLoop (lhs : Expr)
  | andT
  | andLoop (lhs : Expr)
  | eqT
  | eqLoop (lhs : Expr)
  | cmpT
  | cmpLoop (lhs : Expr)
  | termT
  | termLoop (lhs : Expr)
  | factorT
  | factorLoop (lhs : Expr)
  | unaryT
  | callT
  | callLoop (lhs : Expr)
  | argsLoop (acc : List Expr)
  | primaryT

/-- Results of the parser productions. -/
inductive POut where
  | ex (e : Expr)
  | st (s : Stmt)
  | sts (l : List Stmt)
  | strs (l : List String)
  | exs (l : List Expr)

/-- Project an expression result (other constructors are unreachable for
expression tasks). -/
def asEx (r : POut × PState) : Except PErr (Expr × PState) :=
  match r with
  | (.ex e, p) => .ok (e, p)
  | _ => .error (.hostError "internal: expected expression result")

/-- Project a statement result. -/
def asSt (r : POut × PState) : Except PErr (Stmt × PState) :=
  match r with
  | (.st s, p) => .ok (s, p)
  | _ => .error (.hostError "internal: expected statement result")

/-- Project a statement-list result. -/
def asSts (r : POut × PState) : Except PErr (List Stmt × PState) :=
  match r with
  | (.sts l, p) => .ok (l, p)
  | _ => .error (.hostError "internal: expected statement list result")

/-- Project a string-list result. -/
def asStrs (r : POut × PState) : Except PErr (List String × PState) :=
  match r with
  | (.strs l, p) => .ok (l, p)
  | _ => .error (.hostError "internal: expected parameter list result")

/-- Project an expression-list result. -/
def asExs (r : POut × PState) : Except PErr (List Expr × PState) :=
  match r with
  | (.exs l, p) => .ok (l, p)
  | _ => .error (.hostError "internal: expected argument list result")

/-- The recursive-descent parser, one case per `Parser` method, mirrored
line by line.  `Parser.declaration` re-raises the `ParseError` after
`synchronize`, and `synchronize` only moves the token cursor, which a
failing `parse` call never exposes, so synchronization is omitted.  All
recursion is fuelled; `parse` supplies ample fuel. -/
def runParse : Nat → PState → PTask → Except PErr (POut × PState)
  | 0, _, _ => .error .timeout
  | fuel + 1, p, task =>
    match task with
    | .programT => runParse fuel p (.programLoop [])
    | .programLoop acc =>
      if pAtEnd p then .ok (.sts acc, p)
      else do
        let (s, p1) ← asSt (← runParse fuel p .declT)
        runParse fuel p1 (.programLoop (acc ++ [s]))
    | .declT =>
      let (m, p1) := pMatch p [.FUNC]
      if m then runParse fuel p1 .funcDeclT
      else
        let (m2, p2) := pMatch p [.LET]
        if m2 then runParse fuel p2 .varDeclT
        else runParse fuel p .stmtT
    | .funcDeclT => do
      let (nameTok, p1) ← pConsume p .IDENTIFIER "Expected function name"
      let (_, p2) ← pConsume p1 .LEFT_PAREN "Expected ( after function name"
      let (params, p3) ←
        if pCheck p2 .RIGHT_PAREN then pure ([], p2)
        else do
          let (t, pa) ← pConsume p2 .IDENTIFIER "Expected parameter name"
          asStrs (← runParse fuel pa (.paramsLoop [t.value]))
      let (_, p4) ← pConsume p3 .RIGHT_PAREN "Expected ) after parameters"
      let (_, p5) ← pConsume p4 .LEFT_BRACE "Expected \x7b before function body"
      let (body, p6) ← asSts (← runParse fuel p5 .blockT)
      pure (.st (.funcDecl nameTok.value params body), p6)
    | .paramsLoop acc =>
      let (m, p1) := pMatch p [.COMMA]
      if m then do
        let (t, p2) ← pConsume p1 .IDENTIFIER "Expected parameter name"
        runParse fuel p2 (.paramsLoop (acc ++ [t.value]))
      else .ok (.strs acc, p)
    | .varDeclT => do
      let (nameTok, p1) ← pConsume p .IDENTIFIER "Expected variable name"
      let (m, p2) := pMatch p1 [.ASSIGN]
      if m then do
        let (e, p3) ← asEx (← runParse fuel p2 .exprT)
        let (_, p4) ← pConsume p3 .SEMICOLON "Expected ; after variable declaration"
        pure (.st (.varDecl nameTok.value (some e)), p4)
      else do
        let (_, p4) ← pConsume p2 .SEMICOLON "Expected ; after variable declaration"
        pure (.st (.varDecl nameTok.value none), p4)
    | .stmtT =>
      let (m1, p1) := pMatch p [.GORUN]
      if m1 then runParse fuel p1 .gorunT
      else
        let (m2, p2) := pMatch p [.RETURN]
        if m2 then runParse fuel p2 .returnT
        else
          let (m3, p3) := pMatch p [.IF]
          if m3 then runParse fuel p3 .ifT
          else
            let (m4, p4) := pMatch p [.FOR]
            if m4 then runParse fuel p4 .forT
            else
              let (m5, p5) := pMatch p [.WHILE]
              if m5 then runParse fuel p5 .whileT
              else
                let (m6, p6) := pMatch p [.LEFT_BRACE]
                if m6 then do
                  let (l, p7) ← asSts (← runParse fuel p6 .blockT)
                  pure (.st (.block l), p7)
                else runParse fuel p .exprStmtT
    | .gorunT => do
      let (_, p1) ← pConsume p .LEFT_PAREN "Expected ( after gorun"
      let (e, p2) ← asEx (← runParse fuel p1 .exprT)
      let (_, p3) ← pConsume p2 .RIGHT_PAREN "Expected ) after gorun expression"
      let (_, p4) ← pConsume p3 .SEMICOLON "Expected ; after gorun statement"
      pure (.st (.gorun e), p4)
    | .returnT =>
      if pCheck p .SEMICOLON then do
        let (_, p1) ← pConsume p .SEMICOLON "Expected ; after return statement"
        pure (.st (.returnS none), p1)
      else do
        let (e, p1) ← asEx (← runParse fuel p .exprT)
        let (_, p2) ← pConsume p1 .SEMICOLON "Expected ; after return statement"
        pure (.st (.returnS (some e)), p2)
    | .ifT => do
      let (_, p1) ← pConsume p .LEFT_PAREN "Expected ( after if"
      let (cond, p2) ← asEx (← runParse fuel p1 .exprT)
      let (_, p3) ← pConsume p2 .RIGHT_PAREN "Expected ) after if condition"
      let (thenB, p4) ← asSt (← runParse fuel p3 .stmtT)
      let (m, p5) := pMatch p4 [.ELSE]
      if m then do
        let (elseB, p6) ← asSt (← runParse fuel p5 .stmtT)
        pure (.st (.ifS cond thenB (some elseB)), p6)
      else pure (.st (.ifS cond thenB none), p5)
    | .forT => do
      let (_, p1) ← pConsume p .LEFT_PAREN "Expected ( after for"
      let (initS, p2) ← do
        let (m, pa) := pMatch p1 [.SEMICOLON]
        if m then pure ((none : Option Stmt), pa)
        else
          let (m2, pb) := pMatch p1 [.LET]
          if m2 then do
            let (s, pc) ← asSt (← runParse fuel pb .varDeclT)
            pure (some s, pc)
          else do
            let (s, pc) ← asSt (← runParse fuel p1 .exprStmtT)
            pure (some s, pc)
      let (cond, p3) ←
        if pCheck p2 .SEMICOLON then pure ((none : Option Expr), p2)
        else do
          let (e, pa) ← asEx (← runParse fuel p2 .exprT)
          pure (some e, pa)
      let (_, p4) ← pConsume p3 .SEMICOLON "Expected ; after for loop condition"
      let (inc, p5) ←
        if pCheck p4 .RIGHT_PAREN then pure ((none : Option Expr), p4)
        else do
          let (e, pa) ← asEx (← runParse fuel p4 .exprT)
          pure (some e, pa)
      let (_, p6) ← pConsume p5 .RIGHT_PAREN "Expected ) after for clauses"
      let (body, p7) ← asSt (← runParse fuel p6 .stmtT)
      pure (.st (.forS initS cond inc body), p7)
    | .whileT => do
      let (_, p1) ← pConsume p .LEFT_PAREN "Expected ( after while"
      let (cond, p2) ← asEx (← runParse fuel p1 .exprT)
      let (_, p3) ← pConsume p2 .RIGHT_PAREN "Expected ) after while condition"
      let (body, p4) ← asSt (← runParse fuel p3 .stmtT)
      pure (.st (.whileS cond body), p4)
    | .blockT => runParse fuel p (.blockLoop [])
    | .blockLoop acc =>
      if !(pCheck p .RIGHT_BRACE) && !(pAtEnd p) then do
        let (s, p1) ← asSt (← runParse fuel p .declT)
        runParse fuel p1 (.blockLoop (acc ++ [s]))
      else do
        let (_, p1) ← pConsume p .RIGHT_BRACE "Expected \x7d after block"
        pure (.sts acc, p1)
    | .exprStmtT => do
      let (e, p1) ← asEx (← runParse fuel p .exprT)
      let (_, p2) ← pConsume p1 .SEMICOLON "Expected ; after expression"
      pure (.st (.exprStmt e), p2)
    | .exprT => runParse fuel p .assignT
    | .assignT => do
      let (e, p1) ← asEx (← runParse fuel p .orT)
      let (m, p2) := pMatch p1 [.ASSIGN]
      if m then do
        let (v, p3) ← asEx (← runParse fuel p2 .assignT)
        match e with
        | .identifier n => pure (.ex (.assignE n v), p3)
        | _ => .error (.parseError "Invalid assignment target")
      else pure (.ex e, p1)
    | .orT => do
      let (e, p1) ← asEx (← runParse fuel p .andT)
      runParse fuel p1 (.orLoop e)
    | .orLoop lhs =>
      let (m, p1) := pMatch p [.OR]
      if m then do
        let op := (pPrevious p1).value
        let (r, p2) ← asEx (← runParse fuel p1 .andT)
        runParse fuel p2 (.orLoop (.binary lhs op r))
      else .ok (.ex lhs, p)
    | .andT => do
      let (e, p1) ← asEx (← runParse fuel p .eqT)
      runParse fuel p1 (.andLoop e)
    | .andLoop lhs =>
      let (m, p1) := pMatch p [.AND]
      if m then do
        let op := (pPrevious p1).value
        let (r, p2) ← asEx (← runParse fuel p1 .eqT)
        runParse fuel p2 (.andLoop (.binary lhs op r))
      else .ok (.ex lhs, p)
    | .eqT => do
      let (e, p1) ← asEx (← runParse fuel p .cmpT)
      runParse fuel p1 (.eqLoop e)
    | .eqLoop lhs =>
      let (m, p1) := pMatch p [.EQUAL, .NOT_EQUAL]
      if m then do
        let op := (pPrevious p1).value
        let (r, p2) ← asEx (← runParse fuel p1 .cmpT)
        runParse fuel p2 (.eqLoop (.binary lhs op r))
      else .ok (.ex lhs, p)
    | .cmpT => do
      let (e, p1) ← asEx (← runParse fuel p .termT)
      runParse fuel p1 (.cmpLoop e)
    | .cmpLoop lhs =>
      let (m, p1) := pMatch p [.GREATER_THAN, .GREATER_EQUAL, .LESS_THAN, .LESS_EQUAL]
      if m then do
        let op := (pPrevious p1).value
        let (r, p2) ← asEx (← runParse fuel p1 .termT)
        runParse fuel p2 (.cmpLoop (.binary lhs op r))
      else .ok (.ex lhs, p)
    | .termT => do
      let (e, p1) ← asEx (← runParse fuel p .factorT)
      runParse fuel p1 (.termLoop e)
    | .termLoop lhs =>
      let (m, p1) := pMatch p [.MINUS, .PLUS]
      if m then do
        let op := (pPrevious p1).value
        let (r, p2) ← asEx (← runParse fuel p1 .factorT)
        runParse fuel p2 (.termLoop (.binary lhs op r))
      else .ok (.ex lhs, p)
    | .factorT => do
      let (e, p1) ← asEx (← runParse fuel p .unaryT)
      runParse fuel p1 (.factorLoop e)
    | .factorLoop lhs =>
      let (m, p1) := pMatch p [.DIVIDE, .MULTIPLY, .MODULO]
      if m then do
        let op := (pPrevious p1).value
        let (r, p2) ← asEx (← runParse fuel p1 .unaryT)
        runParse fuel p2 (.factorLoop (.binary lhs op r))
      else .ok (.ex lhs, p)
    | .unaryT =>
      let (m, p1) := pMatch p [.NOT, .MINUS]
      if m then do
        let op := (pPrevious p1).value
        let (r, p2) ← asEx (← runParse fuel p1 .unaryT)
        pure (.ex (.unary op r), p2)
      else runParse fuel p .callT
    | .callT => do
      let (e, p1) ← asEx (← runParse fuel p .primaryT)
      runParse fuel p1 (.callLoop e)
    | .callLoop lhs =>
      let (m, p1) := pMatch p [.LEFT_PAREN]
      if m then do
        let (args, p2) ←
          if pCheck p1 .RIGHT_PAREN then pure (([] : List Expr), p1)
          else do
            let (a, pa) ← asEx (← runParse fuel p1 .exprT)
            asExs (← runParse fuel pa (.argsLoop [a]))
        let (_, p3) ← pConsume p2 .RIGHT_PAREN "Expected ) after arguments"
        runParse fuel p3 (.callLoop (.call lhs args))
      else .ok (.ex lhs, p)
    | .argsLoop acc =>
      let (m, p1) := pMatch p [.COMMA]
      if m then do
        let (a, p2) ← asEx (← runParse fuel p1 .exprT)
        runParse fuel p2 (.argsLoop (acc ++ [a]))
      else .ok (.exs acc, p)
    | .primaryT =>
      let (mT, p1) := pMatch p [.TRUE]
      if mT then .ok (.ex (.literal (.lbool true)), p1)
      else
        let (mF, p2) := pMatch p [.FALSE]
        if mF then .ok (.ex (.literal (.lbool false)), p2)
        else
          let (mN, p3) := pMatch p [.NUMBER]
          if mN then
            let v := (pPrevious p3).value
            if v.data.contains '.' then
              match pyFloatParse v with
              | some q => .ok (.ex (.literal (.lfloat q)), p3)
              | none => .error (.hostError ("could not convert string to float: " ++ v))
            else .ok (.ex (.literal (.lint (pyIntParse v))), p3)
          else
            let (mS, p4) := pMatch p [.STRING]
            if mS then .ok (.ex (.literal (.lstr (pPrevious p4).value)), p4)
            else
              let (mI, p5) := pMatch p [.IDENTIFIER]
              if mI then .ok (.ex (.identifier (pPrevious p5).value), p5)
              else
                let (mP, p6) := pMatch p [.LEFT_PAREN]
                if mP then do
                  let (e, p7) ← asEx (← runParse fuel p6 .exprT)
                  let (_, p8) ← pConsume p7 .RIGHT_PAREN "Expected ) after expression"
                  pure (.ex e, p8)
                else
                  .error (.parseError ("Unexpected token " ++ tokenTypeValue (pPeek p).type
                    ++ " at line " ++ toString (pPeek p).line))

/-- The `Parser.__init__` pre-filter: drop whitespace and newline tokens. -/
def filterTokens (toks : List Token) : List Token :=
  toks.filter (fun t => t.type ≠ .WHITESPACE ∧ t.type ≠ .NEWLINE)

/-- Fuel bound for `parse`; generous for every concrete input considered
(the Python parser consumes at least one token per primary, so call depth
is linear in the token count). -/
def parseFuel (n : Nat) : Nat :=
  (n + 1) * 64

/-- `Parser.parse`: filter the token list and run the `program` production. -/
def parse (toks : List Token) : Except PErr Program :=
  let ft := filterTokens toks
  match runParse (parseFuel ft.length) ⟨ft, 0⟩ .programT with
  | .ok (.sts l, _) => .ok ⟨l⟩
  | .ok _ => .error (.hostError "internal: program task returned a non-list")
  | .error e => .error e

/-! ## Values and environments (`interpreter.py`) -/

/-- Runtime values: Python `None`, `bool`, `int`, `float` (as a rational),
`str` and `KSFunction`.  A function value records the allocation
identity `fid` (Python object identity, used by `==`), the declaration's
name, parameters and body statements, and the index of the captured
environment (`closure`). -/
inductive Value where
  | vnull
  | vbool (b : Bool)
  | vint (n : Int)
  | vfloat (q : ℚ)
  | vstr (s : String)
  | vfunc (fid : Nat) (name : String) (params : List String) (body : List Stmt) (closure : Nat)

/-- One `Environment` object: its `variables` dict (insertion-ordered
association list, as in CPython) and the optional `parent` reference,
here an index into the interpreter state's frame store. -/
structure Frame where
  vars : List (String × Value)
  parent : Option Nat

/-- Python dict assignment `variables[name] = value`: replace the value of
an existing key in place, else append the new key. -/
def defineVar : List (String × Value) → String → Value → List (String × Value)
  | [], n, v => [(n, v)]
  | (k, w) :: rest, n, v =>
    if k = n then (k, v) :: rest else (k, w) :: defineVar rest n v

/-- Python dict lookup `variables.get(name)` / `name in variables`. -/
def frameGet? : List (String × Value) → String → Option Value
  | [], _ => none
  | (k, v) :: rest, n => if k = n then some v else frameGet? rest n

/-- Dereference an environment index in the frame store (total, with an
empty frame as the out-of-range default; reachable states never go out
of range). -/
def frameAt (frames : List Frame) (i : Nat) : Frame :=
  frames.getD i ⟨[], none⟩

/-- `Environment.get`: walk the parent chain, first defining scope wins.
The fuel bounds the chain length (callers pass the frame count; parent
indices always point at older frames, so that bound is never hit). -/
def envGet : Nat → List Frame → Nat → String → Except String Value
  | 0, _, _, n => .error ("Undefined variable " ++ n)
  | fuel + 1, frames, idx, n =>
    let f := frameAt frames idx
    match frameGet? f.vars n with
    | some v => .ok v
    | none =>
      match f.parent with
      | some pIdx => envGet fuel frames pIdx n
      | none => .error ("Undefined variable " ++ n)

/-- The innermost environment on the parent chain from `idx` that defines
`n` (the scope `Environment.assign` mutates). -/
def envResolve : Nat → List Frame → Nat → String → Option Nat
  | 0, _, _, _ => none
  | fuel + 1, frames, idx, n =>
    if (frameGet? (frameAt frames idx).vars n).isSome then some idx
    else
      match (frameAt frames idx).parent with
      | some pIdx => envResolve fuel frames pIdx n
      | none => none

/-- `Environment.assign`: mutate the binding in the innermost defining
scope (the `try parent.assign / except / raise` in the source amounts to
this recursion); `none` models the `KSRuntimeError` for an undefined
name, in which case no frame is changed. -/
def envAssign : Nat → List Frame → Nat → String → Value → Option (List Frame)
  | 0, _, _, _, _ => none
  | fuel + 1, frames, idx, n, v =>
    if (frameGet? (frameAt frames idx).vars n).isSome then
      some (frames.set idx
        { frameAt frames idx with vars := defineVar (frameAt frames idx).vars n v })
    else
      match (frameAt frames idx).parent with
      | some pIdx => envAssign fuel frames pIdx n v
      | none => none

/-! ## Python operator semantics used by `Interpreter.visit_binary`
and `visit_unary`. -/

/-- `Interpreter.is_truthy`. -/
def truthy : Value → Bool
  | .vnull => false
  | .vbool b => b
  | _ => true

/-- `isinstance(value, str)`. -/
def isStr : Value → Bool
  | .vstr _ => true
  | _ => false

/-- A Python number: `bool` is an `int` subclass (`True` acts as `1`). -/
inductive PyNum where
  | int (n : Int)
  | flt (q : ℚ)

/-- The numeric view of a value, when it has one. -/
def asNum : Value → Option PyNum
  | .vbool b => some (.int (if b then 1 else 0))
  | .vint n => some (.int n)
  | .vfloat q => some (.flt q)
  | _ => none

/-- The rational magnitude of a Python number. -/
def numVal : PyNum → ℚ
  | .int n => (n : ℚ)
  | .flt q => q

/-- Python numeric addition: `int + int` stays `int`, a `float` operand
makes the result `float`. -/
def numAdd : PyNum → PyNum → Value
  | .int a, .int b => .vint (a + b)
  | a, b => .vfloat (numVal a + numVal b)

/-- Python numeric subtraction. -/
def numSub : PyNum → PyNum → Value
  | .int a, .int b => .vint (a - b)
  | a, b => .vfloat (numVal a - numVal b)

/-- Python numeric multiplication. -/
def numMul : PyNum → PyNum → Value
  | .int a, .int b => .vint (a * b)
  | a, b => .vfloat (numVal a * numVal b)

/-- Python `%` on numbers: the result follows the divisor's sign
(`a - b * floor(a / b)`); a zero divisor raises `ZeroDivisionError`
(which `visit_binary` does not guard for `%`). -/
def numMod : PyNum → PyNum → Except String Value
  | .int a, .int b =>
    if b = 0 then .error "integer modulo by zero"
    else .ok (.vint (Int.fmod a b))
  | a, b =>
    if numVal b = 0 then .error "float modulo"
    else
      let x := numVal a
      let y := numVal b
      .ok (.vfloat (x - y * ((x / y).floor : ℚ)))

/-- The sequence-repetition view Python's `*` takes of an integral
operand (`bool` included, `float` excluded). -/
def asIndex : Value → Option Int
  | .vbool b => some (if b then 1 else 0)
  | .vint n => some n
  | _ => none

/-- Python `str * int`: repetition, empty for a non-positive count. -/
def strRepeat (s : String) (n : Int) : String :=
  String.join (List.replicate n.toNat s)

/-- Python `==` on the value carriers: numbers compare by value across
`bool`/`int`/`float`, strings by content, `None` only to itself,
functions by object identity; mixed types are unequal. -/
def pyEqB (l r : Value) : Bool :=
  match asNum l, asNum r with
  | some a, some b => numVal a = numVal b
  | _, _ =>
    match l, r with
    | .vstr s, .vstr t => s = t
    | .vnull, .vnull => true
    | .vfunc f _ _ _ _, .vfunc g _ _ _ _ => f = g
    | _, _ => false

/-- Code-point lexicographic order on strings (Python string `<`). -/
def charListLt : List Char → List Char → Bool
  | [], [] => false
  | [], _ :: _ => true
  | _ :: _, [] => false
  | a :: as, b :: bs =>
    if a < b then true else if b < a then false else charListLt as bs

/-- Python `<`: numbers by value, strings lexicographically, anything
else a `TypeError`. -/
def pyLtB (l r : Value) : Except String Bool :=
  match asNum l, asNum r with
  | some a, some b => .ok (decide (numVal a < numVal b))
  | _, _ =>
    match l, r with
    | .vstr s, .vstr t => .ok (charListLt s.data t.data)
    | _, _ => .error "TypeError: order comparison not supported between these types"

/-- Runtime control signals and errors.  `rtError` is `KSRuntimeError`
(the only exception `interpret` catches); `retSignal` is the
`ReturnValue` non-local return; `hostError` is any other Python
exception escaping uncaught; `timeout` is the fuel artifact. -/
inductive Signal where
  | rtError (msg : String)
  | retSignal (v : Value)
  | hostError (msg : String)
  | timeout

/-- Python `str(...)` on the value carriers (`Interpreter.visit_binary`
uses it directly for `+` string coercion).  The decimal rendering of a
non-integral float approximates the host's shortest-roundtrip form; the
function label omits the host's object address. -/
def pyStr : Value → String
  | .vnull => "None"
  | .vbool b => if b then "True" else "False"
  | .vint n => toString n
  | .vfloat q =>
    if q.den = 1 then toString q.num ++ ".0"
    else
      let sq := if q < 0 then "-" else ""
      let aq := |q|
      let ip := aq.floor.toNat
      let fr := aq - (ip : ℚ)
      sq ++ toString ip ++ "." ++ fracDigits 17 fr.num.toNat fr.den
  | .vstr s => s
  | .vfunc _ _ _ _ _ => "<KSFunction object>"
where
  /-- Decimal digits of `num / den` with `num < den`, up to `fuel` places. -/
  fracDigits : Nat → Nat → Nat → String
    | 0, _, _ => ""
    | fuel + 1, num, den =>
      if num = 0 then ""
      else toString (num * 10 / den) ++ fracDigits fuel (num * 10 % den) den

/-- `Interpreter.stringify`: `None`, booleans and floats get canonical
forms (a float's trailing `.0` is stripped); everything else is
`str(value)`. -/
def stringify (v : Value) : String :=
  match v with
  | .vnull => "null"
  | .vbool b => if b then "true" else "false"
  | .vfloat q =>
    let text := pyStr (.vfloat q)
    if text.data.reverse.take 2 = ['0', '.'] then String.mk (text.data.take (text.data.length - 2))
    else text
  | _ => pyStr v

/-- The operator dispatch of `Interpreter.visit_binary` (lines 106-137),
applied after both operands have been evaluated.  Python `%` with a
string left operand does printf-style formatting; no KS program relies
on it and it is left as an unmodelled host branch. -/
def visitBinaryOp (op : String) (l r : Value) : Except Signal Value :=
  if op = "+" then
    if isStr l || isStr r then .ok (.vstr (pyStr l ++ pyStr r))
    else
      match asNum l, asNum r with
      | some a, some b => .ok (numAdd a b)
      | _, _ => .error (.hostError "TypeError: unsupported operand types for +")
  else if op = "-" then
    match asNum l, asNum r with
    | some a, some b => .ok (numSub a b)
    | _, _ => .error (.hostError "TypeError: unsupported operand types for -")
  else if op = "*" then
    match l, r with
    | .vstr s, _ =>
      match asIndex r with
      | some n => .ok (.vstr (strRepeat s n))
      | none => .error (.hostError "TypeError: cannot multiply sequence by non-int")
    | _, .vstr s =>
      match asIndex l with
      | some n => .ok (.vstr (strRepeat s n))
      | none => .error (.hostError "TypeError: cannot multiply sequence by non-int")
    | _, _ =>
      match asNum l, asNum r with
      | some a, some b => .ok (numMul a b)
      | _, _ => .error (.hostError "TypeError: unsupported operand types for *")
  else if op = "/" then
    if pyEqB r (.vint 0) then .error (.rtError "Division by zero")
    else
      match asNum l, asNum r with
      | some a, some b => .ok (.vfloat (numVal a / numVal b))
      | _, _ => .error (.hostError "TypeError: unsupported operand types for /")
  else if op = "%" then
    match l with
    | .vstr _ => .error (.hostError "string formatting with % is outside the model")
    | _ =>
      match asNum l, asNum r with
      | some a, some b =>
        match numMod a b with
        | .ok v => .ok v
        | .error m => .error (.hostError ("ZeroDivisionError: " ++ m))
      | _, _ => .error (.hostError "TypeError: unsupported operand types for %")
  else if op = "==" then .ok (.vbool (pyEqB l r))
  else if op = "!=" then .ok (.vbool (!pyEqB l r))
  else if op = "<" then
    match pyLtB l r with
    | .ok b => .ok (.vbool b)
    | .error m => .error (.hostError m)
  else if op = ">" then
    match pyLtB r l with
    | .ok b => .ok (.vbool b)
    | .error m => .error (.hostError m)
  else if op = "<=" then
    match pyLtB r l with
    | .ok b => .ok (.vbool (!b))
    | .error m => .error (.hostError m)
  else if op = ">=" then
    match pyLtB l r with
    | .ok b => .ok (.vbool (!b))
    | .error m => .error (.hostError m)
  else if op = "&&" then .ok (.vbool (truthy l && truthy r))
  else if op = "||" then .ok (.vbool (truthy l || truthy r))
  else .error (.rtError ("Unknown binary operator: " ++ op))

/-- The operator dispatch of `Interpreter.visit_unary`, applied after the
operand has been evaluated. -/
def visitUnaryOp (op : String) (v : Value) : Except Signal Value :=
  if op = "-" then
    match asNum v with
    | some (.int n) => .ok (.vint (-n))
    | some (.flt q) => .ok (.vfloat (-q))
    | none => .error (.hostError "TypeError: bad operand type for unary -")
  else if op = "!" then .ok (.vbool (!truthy v))
  else .error (.rtError ("Unknown unary operator: " ++ op))

/-! ## The evaluator (`Interpreter`) -/

/-- Interpreter state: the store of all environment objects created so
far (`frames`, the global environment at index 0), the index of the
current environment (`self.environment`), the allocation counter for
function-object identities, and the accumulated stdout/stderr lines. -/
structure St where
  frames : List Frame
  env : Nat
  nextFid : Nat
  output : List String
  errOutput : List String

/-- `Interpreter.__init__`: a single empty global environment. -/
def initSt : St :=
  ⟨[⟨[], none⟩], 0, 0, [], []⟩

/-- `Environment.define` on the current environment of the state. -/
def stDefine (st : St) (n : String) (v : Value) : St :=
  let f := st.frames.getD st.env ⟨[], none⟩
  { st with frames := st.frames.set st.env { f with vars := defineVar f.vars n v } }

/-- The parameter-binding loop of `KSFunction.call`: each parameter gets
the argument at its position, or a default `None` once the arguments run
out (`if i < len(arguments)` fails). -/
def bindParams : List String → List Value → List (String × Value) → List (String × Value)
  | [], _, acc => acc
  | p :: ps, [], acc => bindParams ps [] (defineVar acc p .vnull)
  | p :: ps, a :: args, acc => bindParams ps args (defineVar acc p a)

/-- Evaluation/execution tasks: one constructor per `Interpreter.visit_*`
dispatch plus explicit tasks for the statement list of a block, the
argument list of a call, and the `while`/`for` loops. -/
inductive ITask where
  | evalE (e : Expr)
  | execS (s : Stmt)
  | execList (ss : List Stmt)
  | evalArgs (callee : Value) (done : List Value) (pending : List Expr)
  | loopWhile (c : Expr) (b : Stmt)
  | loopFor (c : Option Expr) (inc : Option Expr) (b : Stmt)

/-- The tree-walking evaluator.  Expressions produce their value;
statements produce `vnull` (Python `None`).  Errors and the return
signal carry the state reached so far (heap mutations and output
persist across an unwinding exception; the `finally` blocks restoring
`self.environment` are modelled on both result branches). -/
def run : Nat → St → ITask → Except (Signal × St) (Value × St)
  | 0, st, _ => .error (.timeout, st)
  | fuel + 1, st, task =>
    match task with
    | .evalE e =>
      match e with
      | .literal l =>
        match l with
        | .lbool b => .ok (.vbool b, st)
        | .lint n => .ok (.vint n, st)
        | .lfloat q => .ok (.vfloat q, st)
        | .lstr s => .ok (.vstr s, st)
      | .identifier n =>
        match envGet st.frames.length st.frames st.env n with
        | .ok v => .ok (v, st)
        | .error msg => .error (.rtError msg, st)
      | .binary lE op rE => do
        let (lv, st1) ← run fuel st (.evalE lE)
        let (rv, st2) ← run fuel st1 (.evalE rE)
        match visitBinaryOp op lv rv with
        | .ok v => .ok (v, st2)
        | .error sig => .error (sig, st2)
      | .unary op oe => do
        let (v, st1) ← run fuel st (.evalE oe)
        match visitUnaryOp op v with
        | .ok r => .ok (r, st1)
        | .error sig => .error (sig, st1)
      | .call fE args => do
        let (cv, st1) ← run fuel st (.evalE fE)
        run fuel st1 (.evalArgs cv [] args)
      | .assignE n vE => do
        let (v, st1) ← run fuel st (.evalE vE)
        match envAssign st1.frames.length st1.frames st1.env n v with
        | some frames2 => .ok (v, { st1 with frames := frames2 })
        | none => .error (.rtError ("Undefined variable " ++ n), st1)
    | .evalArgs cv done pending =>
      match pending with
      | a :: rest => do
        let (av, st1) ← run fuel st (.evalE a)
        run fuel st1 (.evalArgs cv (done ++ [av]) rest)
      | [] =>
        match cv with
        | .vfunc _ _ ps body closure =>
          if done.length ≠ ps.length then
            .error (.rtError ("Expected " ++ toString ps.length ++ " arguments but got "
              ++ toString done.length), st)
          else
            -- KSFunction.call: fresh child of the captured environment,
            -- positional parameter binding, body via execute_block,
            -- ReturnValue caught here, otherwise None.
            let fidx := st.frames.length
            let st1 := { st with frames := st.frames ++ [⟨bindParams ps done [], some closure⟩],
                                 env := fidx }
            match run fuel st1 (.execList body) with
            | .ok (_, st2) => .ok (.vnull, { st2 with env := st.env })
            | .error (.retSignal v, st2) => .ok (v, { st2 with env := st.env })
            | .error (sig, st2) => .error (sig, { st2 with env := st.env })
        | _ => .error (.rtError "Can only call functions", st)
    | .execS s =>
      match s with
      | .varDecl n initE =>
        match initE with
        | none => .ok (.vnull, stDefine st n .vnull)
        | some e => do
          let (v, st1) ← run fuel st (.evalE e)
          .ok (.vnull, stDefine st1 n v)
      | .funcDecl n ps body =>
        let fv := Value.vfunc st.nextFid n ps body st.env
        .ok (.vnull, stDefine { st with nextFid := st.nextFid + 1 } n fv)
      | .exprStmt e => run fuel st (.evalE e)
      | .block ss =>
        -- visit_block_statement: execute_block(ss, Environment(self.environment));
        -- the finally clause restores self.environment on every exit path.
        let fidx := st.frames.length
        let st1 := { st with frames := st.frames ++ [⟨[], some st.env⟩], env := fidx }
        match run fuel st1 (.execList ss) with
        | .ok (_, st2) => .ok (.vnull, { st2 with env := st.env })
        | .error (sig, st2) => .error (sig, { st2 with env := st.env })
      | .ifS c t eB => do
        let (cv, st1) ← run fuel st (.evalE c)
        if truthy cv then do
          let (_, st2) ← run fuel st1 (.execS t)
          .ok (.vnull, st2)
        else
          match eB with
          | some e => do
            let (_, st2) ← run fuel st1 (.execS e)
            .ok (.vnull, st2)
          | none => .ok (.vnull, st1)
      | .forS initS c inc body =>
        let fidx := st.frames.length
        let st1 := { st with frames := st.frames ++ [⟨[], some st.env⟩], env := fidx }
        let initRes :=
          match initS with
          | some i => run fuel st1 (.execS i)
          | none => .ok (.vnull, st1)
        match initRes with
        | .error (sig, st2) => .error (sig, { st2 with env := st.env })
        | .ok (_, st2) =>
          match run fuel st2 (.loopFor c inc body) with
          | .ok (_, st3) => .ok (.vnull, { st3 with env := st.env })
          | .error (sig, st3) => .error (sig, { st3 with env := st.env })
      | .whileS c b => run fuel st (.loopWhile c b)
      | .returnS vE =>
        match vE with
        | none => .error (.retSignal .vnull, st)
        | some e => do
          let (v, st1) ← run fuel st (.evalE e)
          .error (.retSignal v, st1)
      | .gorun e => do
        let (v, st1) ← run fuel st (.evalE e)
        .ok (.vnull, { st1 with output := st1.output ++ [stringify v] })
    | .execList ss =>
      match ss with
      | [] => .ok (.vnull, st)
      | s :: rest => do
        let (_, st1) ← run fuel st (.execS s)
        run fuel st1 (.execList rest)
    | .loopWhile c b => do
      let (cv, st1) ← run fuel st (.evalE c)
      if truthy cv then do
        let (_, st2) ← run fuel st1 (.execS b)
        run fuel st2 (.loopWhile c b)
      else .ok (.vnull, st1)
    | .loopFor c inc b =>
      let condRes : Except (Signal × St) (Bool × St) :=
        match c with
        | none => .ok (true, st)
        | some ce => (run fuel st (.evalE ce)).map (fun p => (truthy p.1, p.2))
      match condRes with
      | .error e => .error e
      | .ok (false, st1) => .ok (.vnull, st1)
      | .ok (true, st1) => do
        let (_, st2) ← run fuel st1 (.execS b)
        let (_, st3) ←
          match inc with
          | none => (.ok (.vnull, st2) : Except (Signal × St) (Value × St))
          | some ie => run fuel st2 (.evalE ie)
        run fuel st3 (.loopFor c inc b)

/-- `Interpreter.interpret`: run the program's statements; catch
`KSRuntimeError` (reporting it on stderr and returning failure); let
every other signal — notably a `ReturnValue` raised outside any call —
escape. -/
def interpret (fuel : Nat) (prog : Program) (st : St) : Except (Signal × St) (Bool × St) :=
  match run fuel st (.execList prog.statements) with
  | .ok (_, st1) => .ok (true, st1)
  | .error (.rtError msg, st1) =>
    .ok (false, { st1 with errOutput := st1.errOutput ++ ["Runtime Error: " ++ msg] })
  | .error (sig, st1) => .error (sig, st1)

/-! ## Claim theorems -/

/-- The token list the lexer produces for `gorun(true);`: `true` is
emitted with the `BOOLEAN` kind. -/
def boolCallToks : List Token :=
  [⟨.GORUN, "gorun", 1, 1⟩, ⟨.LEFT_PAREN, "(", 1, 6⟩, ⟨.BOOLEAN, "true", 1, 7⟩,
   ⟨.RIGHT_PAREN, ")", 1, 11⟩, ⟨.SEMICOLON, ";", 1, 12⟩, ⟨.EOF, "", 1, 13⟩]

/-- C1: the lexer does emit a `BOOLEAN` token for `true`, but
`Parser.primary` only matches the `TRUE`/`FALSE` kinds, which the lexer
never produces, so `parse(tokenize("gorun(true);"))` raises
`ParseError("Unexpected token BOOLEAN at line 1")` instead of producing a
boolean literal — the claim's parse-acceptance half fails on the code. -/
theorem C1_boolean_literal_parse_rejected :
    tokenize "gorun(true);" = .ok boolCallToks ∧
    parse boolCallToks = .error (.parseError "Unexpected token BOOLEAN at line 1") :=
  ⟨rfl, rfl⟩

/-- The token list the lexer produces for `1.2.3;`: `read_number` accepts
any mix of digits and dots, so the single NUMBER lexeme `1.2.3` violates
the `[0-9]+('.'[0-9]*)?` shape the claim asserts. -/
def multiDotToks : List Token :=
  [⟨.NUMBER, "1.2.3", 1, 1⟩, ⟨.SEMICOLON, ";", 1, 6⟩, ⟨.EOF, "", 1, 7⟩]

/-- C5: on `"1.2.3;"` the lexer produces the NUMBER token `1.2.3`, and the
parser's `float(...)` conversion in `primary` then raises a host
`ValueError` — not a `ParseError`/`LexError` — so the claimed error
contract of `parse(tokenize(s))` fails on the code. -/
theorem C5_multi_dot_number_host_valueerror :
    tokenize "1.2.3;" = .ok multiDotToks ∧
    parse multiDotToks = .error (.hostError "could not convert string to float: 1.2.3") :=
  ⟨rfl, rfl⟩

/-- C4: executing a bare top-level `return;` raises the `ReturnValue`
signal, which `interpret` does not catch (it catches only
`KSRuntimeError`), so the signal escapes the `interpret` call with no
diagnostic on the error stream and no failure result. -/
theorem C4_toplevel_return_signal_escapes :
    interpret 5 ⟨[Stmt.returnS none]⟩ initSt = .error (.retSignal .vnull, initSt) :=
  rfl

/-- A state binding `a` to `null` (falsy) and `b` to `0` in the global
environment, as produced by `let a; let b = 0;`. -/
def andCexPre : St :=
  ⟨[⟨[("a", .vnull), ("b", .vint 0)], none⟩], 0, 0, [], []⟩

/-- C2 counterexample: evaluating `a && (b = 5)` with `a` null (falsy)
still evaluates the right operand — its assignment side effect lands in
the environment (`b` becomes `5`) — before returning the normalized
boolean `false`.  The claim's "r is not evaluated" fails on the code,
whose `visit_binary` evaluates both operands before dispatching. -/
theorem C2_and_right_operand_evaluated_cex :
    truthy .vnull = false ∧
    run 4 andCexPre (.evalE (.binary (.identifier "a") "&&"
        (.assignE "b" (.literal (.lint 5))))) =
      .ok (.vbool false, ⟨[⟨[("a", .vnull), ("b", .vint 5)], none⟩], 0, 0, [], []⟩) :=
  ⟨rfl, rfl⟩

/-- C3 counterexample: `true + "!"` concatenates with Python `str()`
(`"True!"`), not with the interpreter's canonical `stringify`
(`"true" ++ "!" = "true!"`), so the claim's canonical-stringification
clause fails on the code. -/
theorem C3_plus_uses_host_str_cex :
    run 3 initSt (.evalE (.binary (.literal (.lbool true)) "+" (.literal (.lstr "!")))) =
      .ok (.vstr "True!", initSt) ∧
    stringify (.vbool true) ++ stringify (.vstr "!") = "true!" ∧
    ("True!" : String) ≠ "true!" :=
  ⟨rfl, rfl, by decide⟩

/-- C6 counterexample: `"ab" * 2` evaluates to the repeated string
`"abab"` with no error of any kind, refuting the claim that `*` on a
string/integer pair raises a runtime error. -/
theorem C6_string_times_int_repeats_cex :
    run 3 initSt (.evalE (.binary (.literal (.lstr "ab")) "*" (.literal (.lint 2)))) =
      .ok (.vstr "abab", initSt) :=
  rfl

/-- C2 (amended): `&&` and `||` always evaluate both operands — the left
evaluation's state is threaded into the right evaluation unconditionally —
and return the truthiness-normalized boolean of the conjunction or
disjunction. -/
theorem C2_logical_ops_eager_normalized :
    ∀ (fuel : Nat) (st : St) (l r : Expr),
      run (fuel + 1) st (.evalE (.binary l "&&" r)) =
        (run fuel st (.evalE l)).bind (fun lp =>
          (run fuel lp.2 (.evalE r)).bind (fun rp =>
            .ok (.vbool (truthy lp.1 && truthy rp.1), rp.2))) ∧
      run (fuel + 1) st (.evalE (.binary l "||" r)) =
        (run fuel st (.evalE l)).bind (fun lp =>
          (run fuel lp.2 (.evalE r)).bind (fun rp =>
            .ok (.vbool (truthy lp.1 || truthy rp.1), rp.2))) :=
  fun _ _ _ _ => ⟨rfl, rfl⟩

/-- C3 (amended): when either operand of `+` is a string, the result is
the concatenation of the operands' host `str()` forms — `None` renders as
`"None"`, booleans as `"True"`/`"False"` — not the interpreter's
canonical `stringify`; with two integer operands `+` is numeric
addition. -/
theorem C3_plus_string_concat_host_str :
    (∀ a b : Value, (isStr a || isStr b) = true →
       visitBinaryOp "+" a b = .ok (.vstr (pyStr a ++ pyStr b))) ∧
    pyStr .vnull = "None" ∧
    pyStr (.vbool true) = "True" ∧
    pyStr (.vbool false) = "False" ∧
    (∀ m n : Int, visitBinaryOp "+" (.vint m) (.vint n) = .ok (.vint (m + n))) := by
  refine ⟨?_, rfl, rfl, rfl, fun m n => rfl⟩
  intro a b h
  simp [visitBinaryOp, h]

/-- C3 witness: `"x=" + 3` concatenates to `"x=3"`. -/
theorem C3_plus_concat_witness :
    visitBinaryOp "+" (.vstr "x=") (.vint 3) = .ok (.vstr "x=3") :=
  C3_plus_string_concat_host_str.1 (.vstr "x=") (.vint 3) rfl

/-- C6 (amended): `-`, `*` and `%` apply the host's operators directly:
numeric operands give numeric results, a string times an integer is
repetition (never an error), and a host-unsupported combination such as
`-` on two strings raises a host `TypeError` that escapes uncaught — it
is not a KS runtime error. -/
theorem C6_sub_mul_mod_host_semantics :
    (∀ (fuel : Nat) (st : St) (s : String) (n : Int),
       run (fuel + 2) st (.evalE (.binary (.literal (.lstr s)) "*" (.literal (.lint n)))) =
         .ok (.vstr (strRepeat s n), st)) ∧
    (∀ m n : Int, visitBinaryOp "*" (.vint m) (.vint n) = .ok (.vint (m * n))) ∧
    (∀ m n : Int, visitBinaryOp "-" (.vint m) (.vint n) = .ok (.vint (m - n))) ∧
    visitBinaryOp "%" (.vint 7) (.vint 2) = .ok (.vint 1) ∧
    visitBinaryOp "-" (.vstr "a") (.vstr "b") =
      .error (.hostError "TypeError: unsupported operand types for -") :=
  ⟨fun _ _ _ _ => rfl, fun _ _ => rfl, fun _ _ => rfl, rfl, rfl⟩

/-- The body of `inc` in the spec's closure-counter scenario:
`n = n + 1; return n;`. -/
def ccIncBody : List Stmt :=
  [.exprStmt (.assignE "n" (.binary (.identifier "n") "+" (.literal (.lint 1)))),
   .returnS (some (.identifier "n"))]

/-- The body of `make`: `let n = 0; func inc() {...} return inc;`. -/
def ccMakeBody : List Stmt :=
  [.varDecl "n" (some (.literal (.lint 0))),
   .funcDecl "inc" [] ccIncBody,
   .returnS (some (.identifier "inc"))]

/-- The spec's closure-counter program:
`func make() {...} let f = make(); gorun(f()); gorun(f()); gorun(f());`
(this AST is exactly what `parse ∘ tokenize` yields for that source). -/
def ccProg : Program :=
  ⟨[.funcDecl "make" [] ccMakeBody,
    .varDecl "f" (some (.call (.identifier "make") [])),
    .gorun (.call (.identifier "f") []),
    .gorun (.call (.identifier "f") []),
    .gorun (.call (.identifier "f") [])]⟩

/-- The stdout lines of an interpreter outcome (with the success flag). -/
def outputOf (r : Except (Signal × St) (Bool × St)) : Option (Bool × List String) :=
  match r with
  | .ok (b, st) => some (b, st.output)
  | .error _ => none

/-- C8: a function declaration captures exactly the environment current
at the moment it executes (the constructed `vfunc` records `st.env` as
its closure), and under the call rule — a fresh child of that captured
environment per call — the closure-counter scenario prints `1`, `2`,
`3`: mutations of the captured variable by earlier calls are visible to
later ones. -/
theorem C8_closure_captures_declaration_env :
    (∀ (fuel : Nat) (st : St) (n : String) (ps : List String) (body : List Stmt),
       run (fuel + 1) st (.execS (.funcDecl n ps body)) =
         .ok (.vnull, stDefine { st with nextFid := st.nextFid + 1 } n
           (.vfunc st.nextFid n ps body st.env))) ∧
    outputOf (interpret 64 ccProg initSt) = some (true, ["1", "2", "3"]) :=
  ⟨fun _ _ _ _ _ => rfl, rfl⟩

/-- C10: whenever the argument count equals the parameter count — which
`visit_call`'s arity check guarantees before every `KSFunction.call` —
the parameter-binding loop never reaches its missing-argument default
(`bindParams` coincides with the plain positional zip-fold, which never
binds `None`); and with a mismatched count the evaluator raises the
arity `KSRuntimeError` instead of calling the function. -/
theorem C10_arity_checked_binding_positional :
    (∀ (ps : List String) (args : List Value) (acc : List (String × Value)),
       ps.length = args.length →
       bindParams ps args acc =
         (ps.zip args).foldl (fun f pa => defineVar f pa.1 pa.2) acc) ∧
    (∀ (fuel : Nat) (st : St) (fid : Nat) (nm : String) (ps : List String)
       (body : List Stmt) (closure : Nat) (done : List Value),
       done.length ≠ ps.length →
       run (fuel + 1) st (.evalArgs (.vfunc fid nm ps body closure) done []) =
         .error (.rtError ("Expected " ++ toString ps.length ++ " arguments but got "
           ++ toString done.length), st)) := by
  constructor
  · intro ps
    induction ps with
    | nil =>
      intro args acc h
      cases args with
      | nil => rfl
      | cons a args => simp at h
    | cons p ps ih =>
      intro args acc h
      cases args with
      | nil => simp at h
      | cons a args =>
        simp only [bindParams, List.zip_cons_cons, List.foldl_cons]
        exact ih args (defineVar acc p a) (by simpa using h)
  · intro fuel st fid nm ps body closure done h
    simp only [run]
    rw [if_pos h]

/-- C10 witness: two parameters bound positionally to two arguments, and
a zero-argument call of a one-parameter function rejected by the arity
check. -/
theorem C10_arity_witness :
    bindParams ["x", "y"] [.vint 1, .vint 2] [] =
      ((["x", "y"].zip [Value.vint 1, .vint 2]).foldl
        (fun f pa => defineVar f pa.1 pa.2) []) ∧
    run 1 initSt (.evalArgs (.vfunc 0 "g" ["x"] [] 0) [] []) =
      .error (.rtError "Expected 1 arguments but got 0", initSt) :=
  ⟨C10_arity_checked_binding_positional.1 ["x", "y"] [.vint 1, .vint 2] [] rfl,
   C10_arity_checked_binding_positional.2 0 initSt 0 "g" ["x"] [] 0 [] (by decide)⟩

/-- Replacing the value of a key already present in a frame's dict keeps
the key list unchanged — no binding is created or dropped. -/
theorem defineVar_map_fst (vars : List (String × Value)) (x : String) (v : Value)
    (h : (frameGet? vars x).isSome = true) :
    (defineVar vars x v).map Prod.fst = vars.map Prod.fst := by
  induction vars with
  | nil => simp [frameGet?] at h
  | cons kv rest ih =>
    obtain ⟨k, w⟩ := kv
    by_cases hk : k = x
    · simp [defineVar, hk]
    · simp only [frameGet?, if_neg hk] at h
      simp [defineVar, hk, ih h]

/-- C7: `Environment.assign` succeeds exactly when some environment on
the parent chain defines the name, and then it rewrites that innermost
defining environment in place: the target frame already contained the
key, its key list is unchanged (no new binding anywhere), every other
frame is untouched, and on failure (`none`, the `KSRuntimeError`) no
frame changes at all. -/
theorem C7_assign_mutates_innermost_no_new_binding :
    ∀ (fuel : Nat) (frames : List Frame) (idx : Nat) (x : String) (v : Value),
      (envAssign fuel frames idx x v = none ↔ envResolve fuel frames idx x = none) ∧
      (∀ j, envResolve fuel frames idx x = some j →
        (frameGet? (frameAt frames j).vars x).isSome = true ∧
        envAssign fuel frames idx x v =
          some (frames.set j
            { frameAt frames j with vars := defineVar (frameAt frames j).vars x v }) ∧
        (defineVar (frameAt frames j).vars x v).map Prod.fst =
          ((frameAt frames j).vars).map Prod.fst ∧
        (∀ k, k ≠ j →
          frameAt (frames.set j
            { frameAt frames j with vars := defineVar (frameAt frames j).vars x v }) k =
            frameAt frames k)) := by
  intro fuel
  induction fuel with
  | zero =>
    intro frames idx x v
    refine ⟨by simp [envAssign, envResolve], ?_⟩
    intro j h
    simp [envResolve] at h
  | succ fuel ih =>
    intro frames idx x v
    constructor
    · simp only [envAssign, envResolve]
      by_cases h : (frameGet? (frameAt frames idx).vars x).isSome = true
      · simp [h]
      · rw [if_neg h, if_neg h]
        cases hp : (frameAt frames idx).parent with
        | none => simp
        | some pIdx => exact (ih frames pIdx x v).1
    · intro j hj
      simp only [envAssign]
      simp only [envResolve] at hj
      by_cases h : (frameGet? (frameAt frames idx).vars x).isSome = true
      · rw [if_pos h] at hj
        obtain rfl : idx = j := by injection hj
        rw [if_pos h]
        refine ⟨h, rfl, defineVar_map_fst _ _ _ h, ?_⟩
        intro k hk
        unfold frameAt
        simp [List.getD, List.getElem?_set_ne (Ne.symm hk)]
      · rw [if_neg h] at hj
        rw [if_neg h]
        cases hp : (frameAt frames idx).parent with
        | none =>
          rw [hp] at hj
          exact Option.noConfusion hj
        | some pIdx =>
          rw [hp] at hj
          exact (ih frames pIdx x v).2 j hj

/-- C7 witness: with a global frame defining `x` and an inner child frame,
assigning `x` from the child mutates the global binding in place. -/
theorem C7_assign_witness :
    envAssign 2 [⟨[("x", .vint 1)], none⟩, ⟨[], some 0⟩] 1 "x" (.vint 7) =
      some [⟨[("x", .vint 7)], none⟩, ⟨[], some 0⟩] :=
  ((C7_assign_mutates_innermost_no_new_binding 2
    [⟨[("x", .vint 1)], none⟩, ⟨[], some 0⟩] 1 "x" (.vint 7)).2 0 rfl).2.1

/-- C9: executing a block leaves `self.environment` exactly as it was,
both when the block completes normally and when a runtime error or a
return signal (or even fuel exhaustion) propagates out of it — the
`finally` clause of `execute_block` restores the previous environment on
every exit path, discarding the block's fresh child. -/
theorem C9_block_restores_environment :
    ∀ (fuel : Nat) (st : St) (ss : List Stmt),
      (∀ v st2, run (fuel + 1) st (.execS (.block ss)) = .ok (v, st2) → st2.env = st.env) ∧
      (∀ sig st2, run (fuel + 1) st (.execS (.block ss)) = .error (sig, st2) → st2.env = st.env) := by
  intro fuel st ss
  constructor
  · intro v st2 h
    simp only [run] at h
    split at h
    · injection h with h1
      injection h1 with _ h2
      rw [← h2]
    · exact Except.noConfusion h
  · intro sig st2 h
    simp only [run] at h
    split at h
    · exact Except.noConfusion h
    · injection h with h1
      injection h1 with _ h2
      rw [← h2]

/-- C9 witness: running an empty block from the initial state grows the
frame store but restores the current-environment index to the global
scope. -/
theorem C9_block_witness :
    (⟨[⟨[], none⟩, ⟨[], some 0⟩], 0, 0, [], []⟩ : St).env = initSt.env :=
  (C9_block_restores_environment 1 initSt []).1 .vnull
    ⟨[⟨[], none⟩, ⟨[], some 0⟩], 0, 0, [], []⟩ rfl

end KS
